import Mathlib

/-!
Formal model of the sales-route optimizer core
(src/Scripts/src/vrp_solver.py together with the geometric fallback of
src/Scripts/src/distance_matrix.py).

The solver class `VRPSolver` builds a data dictionary
(`create_data_model`), registers a distance dimension and a time dimension
with time-window constraints on a vendor constraint solver (`solve`), and
converts a found assignment into the returned dictionary
(`_extract_solution`).  The vendor search itself is external to the
repository; its contract — a returned assignment satisfies every
constraint that `solve` registered — is modelled by `RoutingFeasible`
below, each clause of which corresponds to a registration line of
`solve`.
-/

namespace VRP

/-- Truncation toward zero on rationals: the conversion semantics of
numpy `astype(int)` and of Python `int(...)` applied to a numeric value. -/
def ratTrunc (q : ℚ) : ℤ := if 0 ≤ q then ⌊q⌋ else ⌈q⌉

/-- Matrix entry lookup `m[i][j]` on a list-of-lists with out-of-range
default 0, mirroring the indexing done by the callbacks in `solve`. -/
def mat (m : List (List ℤ)) (i j : ℕ) : ℤ := (m.getD i []).getD j 0

/-- The data dictionary built by `VRPSolver.create_data_model`
(vrp_solver.py lines 23-33). -/
structure DataModel where
  distance_matrix : List (List ℤ)
  time_matrix : List (List ℤ)
  time_windows : List (ℤ × ℤ)
  service_times : List ℤ
  num_vehicles : ℕ
  depot : ℕ
  vehicle_capacity : ℤ
  vehicle_time_capacity : ℤ
deriving DecidableEq

/-- `VRPSolver.create_data_model` (vrp_solver.py lines 15-33): matrices are
converted entrywise with `astype(int)` (truncation toward zero), windows
and service times are stored verbatim, and the distance budget becomes
`int(max_distance * 1000)` — the given budget is multiplied by 1000
(a km-to-meters conversion) before it is used as the `Distance`
dimension capacity. -/
def create_data_model (distance_matrix time_matrix : List (List ℚ))
    (time_windows : List (ℤ × ℤ)) (service_times : List ℤ)
    (max_distance : ℚ) (max_time : ℤ) : DataModel where
  distance_matrix := distance_matrix.map (fun row => row.map ratTrunc)
  time_matrix := time_matrix.map (fun row => row.map ratTrunc)
  time_windows := time_windows
  service_times := service_times
  num_vehicles := 1
  depot := 0
  vehicle_capacity := ratTrunc (max_distance * 1000)
  vehicle_time_capacity := max_time

/-- The `distance_callback` closure registered in `VRPSolver.solve`
(lines 58-61): the distance matrix entry of the arc. -/
def distance_callback (data : DataModel) (from_node to_node : ℕ) : ℤ :=
  mat data.distance_matrix from_node to_node

/-- The `time_callback` closure registered in `VRPSolver.solve`
(lines 76-81): travel time of the arc plus the service time of the origin
node; the `int(...)` wrapper is the identity here because the data model
entries are already integers. -/
def time_callback (data : DataModel) (from_node to_node : ℕ) : ℤ :=
  mat data.time_matrix from_node to_node + data.service_times.getD from_node 0

/-- An assignment of the vendor routing model built by `solve`: the
single vehicle's visiting order (positions `0 .. N-1`, position 0 being
the route start) together with the values of the `Time` and `Distance`
dimension cumul variables at positions `0 .. N` (position `N` is the
route end back at the depot). -/
structure Assignment where
  order : List ℕ
  times : List ℤ
  dists : List ℤ
deriving DecidableEq

/-- Node visited at position `k` of the closed route: the visiting order
followed by the final return to the depot. -/
def pathNode (data : DataModel) (a : Assignment) (k : ℕ) : ℕ :=
  (a.order ++ [data.depot]).getD k 0

/-- Contract of the vendor solver for the model registered by
`VRPSolver.solve` (vrp_solver.py lines 47-114), with
`N = len(distance_matrix)`:

* the manager is built over `N` nodes, one vehicle, depot start and end
  (lines 48-52): the order is a permutation of `0 .. N-1` beginning at
  the depot, and the closed route has `N+1` positions;
* `Distance` dimension (lines 63-73): start cumul fixed to zero, slack 0
  (each arc adds exactly `distance_callback`), every cumul variable in
  `[0, vehicle_capacity]`;
* `Time` dimension (lines 83-92): slack at most 60 (each arc adds
  `time_callback` plus a waiting time between 0 and 60), start cumul not
  fixed, every cumul variable in `[0, vehicle_time_capacity]`;
* time-window constraints (lines 97-101): each non-depot location's time
  cumul variable is confined to its window;
* depot window (lines 104-107): the route-start time cumul variable is
  confined to the depot's window.  The route-end variable gets no window,
  only the dimension capacity bound. -/
def RoutingFeasible (data : DataModel) (a : Assignment) : Prop :=
  a.order.length = data.distance_matrix.length ∧
  a.order.Perm (List.range data.distance_matrix.length) ∧
  a.order.getD 0 0 = data.depot ∧
  a.times.length = data.distance_matrix.length + 1 ∧
  a.dists.length = data.distance_matrix.length + 1 ∧
  a.dists.getD 0 0 = 0 ∧
  (∀ k, k < data.distance_matrix.length →
    a.dists.getD (k + 1) 0 =
      a.dists.getD k 0 +
        distance_callback data (pathNode data a k) (pathNode data a (k + 1))) ∧
  (∀ k, k < data.distance_matrix.length + 1 →
    0 ≤ a.dists.getD k 0 ∧ a.dists.getD k 0 ≤ data.vehicle_capacity) ∧
  (∀ k, k < data.distance_matrix.length →
    a.times.getD k 0 +
        time_callback data (pathNode data a k) (pathNode data a (k + 1)) ≤
      a.times.getD (k + 1) 0 ∧
    a.times.getD (k + 1) 0 ≤
      a.times.getD k 0 +
        time_callback data (pathNode data a k) (pathNode data a (k + 1)) + 60) ∧
  (∀ k, k < data.distance_matrix.length + 1 →
    0 ≤ a.times.getD k 0 ∧ a.times.getD k 0 ≤ data.vehicle_time_capacity) ∧
  (∀ k, k < data.distance_matrix.length → k ≠ 0 →
    pathNode data a k < data.time_windows.length →
    ((data.time_windows.getD (pathNode data a k) (0, 0)).1 ≤ a.times.getD k 0 ∧
     a.times.getD k 0 ≤ (data.time_windows.getD (pathNode data a k) (0, 0)).2)) ∧
  (data.depot < data.time_windows.length →
    ((data.time_windows.getD data.depot (0, 0)).1 ≤ a.times.getD 0 0 ∧
     a.times.getD 0 0 ≤ (data.time_windows.getD data.depot (0, 0)).2))

/-- One entry of the `route` list built by `_extract_solution`
(lines 157-161): location index, `Min` of the time cumul variable,
`Min` of the distance cumul variable. -/
structure Stop where
  location_index : ℕ
  arrival_time : ℤ
  cumulative_distance : ℤ
deriving DecidableEq

/-- Default stop used for positional lookups. -/
def dStop : Stop := ⟨0, 0, 0⟩

/-- The dictionary returned by `_extract_solution` (lines 187-192). -/
structure SolutionDict where
  route : List Stop
  total_distance_km : ℚ
  total_time_minutes : ℤ
  num_locations : ℕ
deriving DecidableEq

/-- `VRPSolver._extract_solution` (vrp_solver.py lines 140-192): walk the
route from start to end collecting one stop per position (the end
position included, lines 152-174), then report the end distance cumul
divided by 1000 (line 176, meters-to-km conversion), the end time cumul
(line 177), and `len(route) - 1` locations (line 191). -/
def extract_solution (data : DataModel) (a : Assignment) : SolutionDict :=
  let route := (List.range (data.distance_matrix.length + 1)).map (fun k =>
    (⟨pathNode data a k, a.times.getD k 0, a.dists.getD k 0⟩ : Stop))
  { route := route
    total_distance_km := (a.dists.getD data.distance_matrix.length 0 : ℚ) / 1000
    total_time_minutes := a.times.getD data.distance_matrix.length 0
    num_locations := route.length - 1 }

/-- A successful `solve` call (vrp_solver.py lines 132-135): the vendor
search produced an assignment satisfying every registered constraint and
the method returned `_extract_solution()` computed from it. -/
def SolveSuccess (data : DataModel) (sol : SolutionDict) : Prop :=
  ∃ a, RoutingFeasible data a ∧ sol = extract_solution data a

/-- Modelled from the spec: the internal outcome of the vendor search call
`SolveWithParameters` (line 132), which is not part of the repository.
Either an assignment was found, or the search failed; section 7 of the
design attributes a failure to infeasibility (`NoFeasibleInsertion`) or
to expiry of the time budget (`TimedOutWithoutSolution`). -/
inductive SearchOutcome where
  | found (a : Assignment)
  | noFeasible
  | timedOutNoSolution
deriving DecidableEq

/-- Lines 132-138 of vrp_solver.py: `solve` returns `_extract_solution()`
when the vendor search produced an assignment and the bare value `None`
otherwise, whatever the cause of the failure was. -/
def solveReturn (data : DataModel) : SearchOutcome → Option SolutionDict
  | SearchOutcome.found a => some (extract_solution data a)
  | SearchOutcome.noFeasible => none
  | SearchOutcome.timedOutNoSolution => none

/-- The per-pair distance computed inside the loop body of
`DistanceMatrixCalculator._euclidean_fallback`
(distance_matrix.py lines 67-80), parametrized by the numerical kernels
`np.sqrt`, `np.cos` and `np.radians`; the diagonal keeps the `np.zeros`
initial value because the loop skips `i == j`. -/
def fallbackDist (sqrtf cosf radf : ℚ → ℚ)
    (locations : List (ℚ × ℚ)) (i j : ℕ) : ℚ :=
  if i = j then 0 else
    let lat1 := (locations.getD i (0, 0)).1
    let lon1 := (locations.getD i (0, 0)).2
    let lat2 := (locations.getD j (0, 0)).1
    let lon2 := (locations.getD j (0, 0)).2
    let dlat := (lat2 - lat1) * 111
    let dlon := (lon2 - lon1) * 111 * cosf (radf lat1)
    sqrtf (dlat ^ 2 + dlon ^ 2)

/-- `DistanceMatrixCalculator._euclidean_fallback`
(distance_matrix.py lines 61-86): both result matrices are `n × n`;
off-diagonal distance entries are
`sqrt(((lat2-lat1)*111)^2 + ((lon2-lon1)*111*cos(radians(lat1)))^2)` and
off-diagonal duration entries are `dist / 40 * 60` (40 km/h converted to
minutes); diagonal entries keep the `np.zeros` initial value. -/
def euclidean_fallback (sqrtf cosf radf : ℚ → ℚ)
    (locations : List (ℚ × ℚ)) : List (List ℚ) × List (List ℚ) :=
  let n := locations.length
  ((List.range n).map (fun i => (List.range n).map (fun j =>
     fallbackDist sqrtf cosf radf locations i j)),
   (List.range n).map (fun i => (List.range n).map (fun j =>
     if i = j then 0 else fallbackDist sqrtf cosf radf locations i j / 40 * 60)))

/-- Travel distance recomputed from the matrix over the consecutive arcs
of a stop list. -/
def stopsArcDist (m : List (List ℤ)) : List Stop → ℤ
  | [] => 0
  | [_] => 0
  | s1 :: s2 :: rest =>
      mat m s1.location_index s2.location_index + stopsArcDist m (s2 :: rest)

/-- Travel-plus-service time recomputed from the data model over the
consecutive arcs of a stop list. -/
def stopsArcTime (data : DataModel) : List Stop → ℤ
  | [] => 0
  | [_] => 0
  | s1 :: s2 :: rest =>
      time_callback data s1.location_index s2.location_index +
        stopsArcTime data (s2 :: rest)

instance (data : DataModel) (a : Assignment) :
    Decidable (RoutingFeasible data a) := by
  unfold RoutingFeasible
  infer_instance

/-- Concrete two-location instance: depot plus one client, used to
instantiate the theorems below. -/
def data2 : DataModel :=
  ⟨[[0, 1], [1, 0]], [[0, 5], [5, 0]], [(0, 100), (0, 50)], [0, 3],
    1, 0, 1000, 100⟩

/-- A feasible assignment for `data2`: visit the client at time 5, return
at time 13. -/
def asg2 : Assignment := ⟨[0, 1], [0, 5, 13], [0, 1, 2]⟩

/-- Evaluation of `create_data_model` on the concrete two-location
instance: a 1 km distance budget becomes a capacity of 1000. -/
lemma create_eval_data2 : create_data_model [[0, 1], [1, 0]] [[0, 5], [5, 0]]
    [(0, 100), (0, 50)] [0, 3] 1 100 = data2 := by
  norm_num [create_data_model, data2, ratTrunc]

section Accessors

variable {data : DataModel} {a : Assignment}

lemma rf_order_length (h : RoutingFeasible data a) :
    a.order.length = data.distance_matrix.length := h.1

lemma rf_perm (h : RoutingFeasible data a) :
    a.order.Perm (List.range data.distance_matrix.length) := h.2.1

lemma rf_head (h : RoutingFeasible data a) : a.order.getD 0 0 = data.depot :=
  h.2.2.1

lemma rf_dist_zero (h : RoutingFeasible data a) : a.dists.getD 0 0 = 0 :=
  h.2.2.2.2.2.1

lemma rf_dist_step (h : RoutingFeasible data a) :
    ∀ k, k < data.distance_matrix.length →
      a.dists.getD (k + 1) 0 =
        a.dists.getD k 0 +
          distance_callback data (pathNode data a k) (pathNode data a (k + 1)) :=
  h.2.2.2.2.2.2.1

lemma rf_dist_bound (h : RoutingFeasible data a) :
    ∀ k, k < data.distance_matrix.length + 1 →
      0 ≤ a.dists.getD k 0 ∧ a.dists.getD k 0 ≤ data.vehicle_capacity :=
  h.2.2.2.2.2.2.2.1

lemma rf_time_step (h : RoutingFeasible data a) :
    ∀ k, k < data.distance_matrix.length →
      a.times.getD k 0 +
          time_callback data (pathNode data a k) (pathNode data a (k + 1)) ≤
        a.times.getD (k + 1) 0 ∧
      a.times.getD (k + 1) 0 ≤
        a.times.getD k 0 +
          time_callback data (pathNode data a k) (pathNode data a (k + 1)) + 60 :=
  h.2.2.2.2.2.2.2.2.1

lemma rf_time_bound (h : RoutingFeasible data a) :
    ∀ k, k < data.distance_matrix.length + 1 →
      0 ≤ a.times.getD k 0 ∧ a.times.getD k 0 ≤ data.vehicle_time_capacity :=
  h.2.2.2.2.2.2.2.2.2.1

lemma rf_window (h : RoutingFeasible data a) :
    ∀ k, k < data.distance_matrix.length → k ≠ 0 →
      pathNode data a k < data.time_windows.length →
      ((data.time_windows.getD (pathNode data a k) (0, 0)).1 ≤ a.times.getD k 0 ∧
       a.times.getD k 0 ≤ (data.time_windows.getD (pathNode data a k) (0, 0)).2) :=
  h.2.2.2.2.2.2.2.2.2.2.1

lemma rf_depot_window (h : RoutingFeasible data a) :
    data.depot < data.time_windows.length →
    ((data.time_windows.getD data.depot (0, 0)).1 ≤ a.times.getD 0 0 ∧
     a.times.getD 0 0 ≤ (data.time_windows.getD data.depot (0, 0)).2) :=
  h.2.2.2.2.2.2.2.2.2.2.2

end Accessors

lemma map_getD_range {α : Type} (l : List α) (d : α) :
    (List.range l.length).map (fun i => l.getD i d) = l := by
  induction l with
  | nil => simp
  | cons x xs ih =>
    rw [List.length_cons, List.range_succ_eq_map, List.map_cons, List.map_map]
    have hc : ((fun i => (x :: xs).getD i d) ∘ Nat.succ) =
        fun i => xs.getD i d := by
      funext i
      simp [List.getD_cons_succ]
    rw [List.getD_cons_zero, hc, ih]

lemma pathNode_of_lt {data : DataModel} {a : Assignment} {k : ℕ}
    (hk : k < a.order.length) : pathNode data a k = a.order.getD k 0 := by
  unfold pathNode
  exact List.getD_append _ _ _ _ hk

lemma pathNode_last {data : DataModel} {a : Assignment} :
    pathNode data a a.order.length = data.depot := by
  unfold pathNode
  rw [List.getD_append_right _ _ _ _ (le_refl _)]
  simp

lemma pathNode_lt {data : DataModel} {a : Assignment}
    (h : RoutingFeasible data a) {k : ℕ}
    (hk : k < data.distance_matrix.length) :
    pathNode data a k < data.distance_matrix.length := by
  have hlen := rf_order_length h
  have hk2 : k < a.order.length := by omega
  rw [pathNode_of_lt hk2, List.getD_eq_getElem _ _ hk2]
  have hmem : a.order[k] ∈ a.order := List.getElem_mem hk2
  have := (rf_perm h).mem_iff.mp hmem
  exact List.mem_range.mp this

lemma extract_route_length (data : DataModel) (a : Assignment) :
    (extract_solution data a).route.length = data.distance_matrix.length + 1 := by
  simp [extract_solution]

lemma extract_route_getD (data : DataModel) (a : Assignment) {k : ℕ}
    (hk : k < data.distance_matrix.length + 1) :
    (extract_solution data a).route.getD k dStop =
      ⟨pathNode data a k, a.times.getD k 0, a.dists.getD k 0⟩ := by
  have h1 : k < ((List.range (data.distance_matrix.length + 1)).map (fun k =>
      (⟨pathNode data a k, a.times.getD k 0, a.dists.getD k 0⟩ : Stop))).length := by
    simpa using hk
  show ((List.range (data.distance_matrix.length + 1)).map (fun k =>
      (⟨pathNode data a k, a.times.getD k 0, a.dists.getD k 0⟩ : Stop))).getD k dStop = _
  rw [List.getD_eq_getElem _ _ h1]
  simp [List.getElem_map, List.getElem_range]

lemma extract_route_map_loc (data : DataModel) (a : Assignment)
    (hlen : a.order.length = data.distance_matrix.length) :
    (extract_solution data a).route.map Stop.location_index =
      a.order ++ [data.depot] := by
  have hl : (a.order ++ [data.depot]).length = data.distance_matrix.length + 1 := by
    simp [hlen]
  have hcomp : (Stop.location_index ∘ fun k =>
      (⟨pathNode data a k, a.times.getD k 0, a.dists.getD k 0⟩ : Stop)) =
      fun i => (a.order ++ [data.depot]).getD i 0 := rfl
  calc (extract_solution data a).route.map Stop.location_index
      = (List.range (data.distance_matrix.length + 1)).map
          (fun i => (a.order ++ [data.depot]).getD i 0) := by
        simp only [extract_solution, List.map_map]
        rw [hcomp]
    _ = (List.range (a.order ++ [data.depot]).length).map
          (fun i => (a.order ++ [data.depot]).getD i 0) := by rw [hl]
    _ = a.order ++ [data.depot] := map_getD_range _ _

lemma extract_num_locations (data : DataModel) (a : Assignment) :
    (extract_solution data a).num_locations = data.distance_matrix.length := by
  simp [extract_solution]

/-- C1: for every successful solve the returned route is an ordered list of
N+1 stops that starts at the depot (location index 0), ends at the depot,
and visits every non-depot location exactly once, and the reported
`num_locations` equals N (with N the size of the distance matrix). -/
theorem C1_route_permutation (data : DataModel) (sol : SolutionDict)
    (hd : data.depot = 0) (hN : 1 ≤ data.distance_matrix.length)
    (hs : SolveSuccess data sol) :
    sol.route.length = data.distance_matrix.length + 1 ∧
    (sol.route.getD 0 dStop).location_index = 0 ∧
    (sol.route.getD data.distance_matrix.length dStop).location_index = 0 ∧
    (∀ j, j < data.distance_matrix.length → j ≠ 0 →
      (sol.route.map Stop.location_index).count j = 1) ∧
    sol.num_locations = data.distance_matrix.length := by
  obtain ⟨a, hf, rfl⟩ := hs
  have hlen := rf_order_length hf
  refine ⟨extract_route_length data a, ?_, ?_, ?_, extract_num_locations data a⟩
  · rw [extract_route_getD data a (by omega)]
    have h0 : 0 < a.order.length := by omega
    rw [show ((⟨pathNode data a 0, a.times.getD 0 0, a.dists.getD 0 0⟩ :
        Stop)).location_index = pathNode data a 0 from rfl,
      pathNode_of_lt h0, rf_head hf, hd]
  · rw [extract_route_getD data a (by omega)]
    show pathNode data a data.distance_matrix.length = 0
    rw [← hlen, pathNode_last, hd]
  · intro j hj hj0
    rw [extract_route_map_loc data a hlen, List.count_append]
    have hcount : List.count j a.order = 1 := by
      rw [(rf_perm hf).count_eq]
      exact List.count_eq_one_of_mem (List.nodup_range _) (List.mem_range.mpr hj)
    rw [hcount, hd, List.count_singleton']
    simp [Ne.symm hj0]

/-- Witness for C1 on the concrete two-location instance. -/
theorem C1_route_permutation_witness :
    (extract_solution data2 asg2).route.length = 2 + 1 ∧
    ((extract_solution data2 asg2).route.getD 0 dStop).location_index = 0 ∧
    ((extract_solution data2 asg2).route.getD 2 dStop).location_index = 0 ∧
    (∀ j, j < 2 → j ≠ 0 →
      ((extract_solution data2 asg2).route.map Stop.location_index).count j = 1) ∧
    (extract_solution data2 asg2).num_locations = 2 :=
  C1_route_permutation data2 (extract_solution data2 asg2) rfl (by decide)
    ⟨asg2, by decide, rfl⟩

lemma order_eq_two {data : DataModel} {a : Assignment}
    (h : RoutingFeasible data a) (h2 : data.distance_matrix.length = 2)
    (hd : data.depot = 0) : a.order = [0, 1] := by
  have hlen := rf_order_length h
  rw [h2] at hlen
  have hperm := rf_perm h
  rw [h2] at hperm
  have hhead := rf_head h
  rw [hd] at hhead
  rcases List.length_eq_two.mp hlen with ⟨x, y, hxy⟩
  rw [hxy] at hhead hperm ⊢
  have hx : x = 0 := by simpa using hhead
  subst hx
  have hmem : y ∈ List.range 2 := hperm.mem_iff.mp (by simp)
  have hy2 : y < 2 := List.mem_range.mp hmem
  have hnd : ([0, y] : List ℕ).Nodup := hperm.nodup_iff.mpr (List.nodup_range 2)
  have hy0 : y ≠ 0 := by
    intro h0
    rw [h0] at hnd
    simp at hnd
  have : y = 1 := by omega
  rw [this]

/-- C2 counterexample: a two-location instance whose depot window closes
at time 10 while the fastest possible return is at time 13; the solver
still succeeds because the route-end time variable is only bounded by the
time capacity, so the final depot stop of every returned route violates
the depot's window. -/
def cexC2 : DataModel :=
  ⟨[[0, 1], [1, 0]], [[0, 5], [5, 0]], [(0, 10), (0, 50)], [0, 3],
    1, 0, 1000, 100⟩

/-- A feasible assignment for `cexC2` returning to the depot at time 13. -/
def asgC2 : Assignment := ⟨[0, 1], [0, 5, 13], [0, 1, 2]⟩

/-- C2 is false as stated: on `cexC2` the solve succeeds, yet no returned
route has every stop's arrival time inside that location's time window —
the final depot stop always arrives after the depot window has closed. -/
theorem C2_time_windows_counterexample :
    (∃ sol, SolveSuccess cexC2 sol) ∧
    ∀ sol, SolveSuccess cexC2 sol →
      ¬ (∀ k, k < sol.route.length →
        (cexC2.time_windows.getD (sol.route.getD k dStop).location_index (0, 0)).1 ≤
          (sol.route.getD k dStop).arrival_time ∧
        (sol.route.getD k dStop).arrival_time ≤
          (cexC2.time_windows.getD (sol.route.getD k dStop).location_index (0, 0)).2) := by
  constructor
  · exact ⟨extract_solution cexC2 asgC2, asgC2, by decide, rfl⟩
  · rintro sol ⟨a, hf, rfl⟩ hclaim
    have hlen := rf_order_length hf
    have hord : a.order = [0, 1] := order_eq_two hf rfl rfl
    have hN : cexC2.distance_matrix.length = 2 := rfl
    have hroute : (extract_solution cexC2 a).route.length = 2 + 1 := by
      rw [extract_route_length, hN]
    have hstop := hclaim 2 (by omega)
    rw [extract_route_getD cexC2 a (by omega)] at hstop
    have hp2 : pathNode cexC2 a 2 = 0 := by
      have : a.order.length = 2 := by rw [hord]; rfl
      rw [show (2 : ℕ) = a.order.length from this.symm, pathNode_last]
      rfl
    rw [hp2] at hstop
    have hle : a.times.getD 2 0 ≤ 10 := by
      simpa using hstop.2
    have hp0 : pathNode cexC2 a 0 = 0 := by
      rw [pathNode_of_lt (by omega), hord]
      rfl
    have hp1 : pathNode cexC2 a 1 = 1 := by
      rw [pathNode_of_lt (by omega), hord]
      rfl
    have ht0 := rf_time_step hf 0 (by rw [hN]; omega)
    have ht1 := rf_time_step hf 1 (by rw [hN]; omega)
    rw [hp0, hp1] at ht0
    rw [hp1, hp2] at ht1
    have htc01 : time_callback cexC2 0 1 = 5 := by decide
    have htc10 : time_callback cexC2 1 0 = 8 := by decide
    rw [htc01] at ht0
    rw [htc10] at ht1
    have hb0 := rf_time_bound hf 0 (by rw [hN]; omega)
    have ht0s : a.times.getD 0 0 + 5 ≤ a.times.getD 1 0 := ht0.1
    have ht1s : a.times.getD 1 0 + 8 ≤ a.times.getD 2 0 := ht1.1
    omega

/-- C2 amended: in every successful solve, every stop except the final
return to the depot has its arrival time inside that location's time
window, and the final stop's arrival time is bounded by the route time
capacity instead of the depot window. -/
theorem C2_time_windows_amended (data : DataModel) (sol : SolutionDict)
    (hd : data.depot = 0)
    (htw : data.time_windows.length = data.distance_matrix.length)
    (hs : SolveSuccess data sol) :
    (∀ k, k + 1 < sol.route.length →
      (data.time_windows.getD (sol.route.getD k dStop).location_index (0, 0)).1 ≤
        (sol.route.getD k dStop).arrival_time ∧
      (sol.route.getD k dStop).arrival_time ≤
        (data.time_windows.getD (sol.route.getD k dStop).location_index (0, 0)).2) ∧
    (sol.route.getD (sol.route.length - 1) dStop).arrival_time ≤
      data.vehicle_time_capacity := by
  obtain ⟨a, hf, rfl⟩ := hs
  have hlen := rf_order_length hf
  constructor
  · intro k hk
    rw [extract_route_length] at hk
    rw [extract_route_getD data a (by omega)]
    rcases Nat.eq_zero_or_pos k with hk0 | hkpos
    · subst hk0
      have hN : 1 ≤ data.distance_matrix.length := by omega
      have hp0 : pathNode data a 0 = data.depot := by
        rw [pathNode_of_lt (by omega), rf_head hf]
      have hdw := rf_depot_window hf (by rw [htw, hd]; omega)
      rw [hp0]
      exact hdw
    · have hkN : k < data.distance_matrix.length := by omega
      have hplt := pathNode_lt hf hkN
      exact rf_window hf k hkN (by omega) (by omega)
  · rw [extract_route_length]
    have : data.distance_matrix.length + 1 - 1 = data.distance_matrix.length := by
      omega
    rw [this, extract_route_getD data a (by omega)]
    exact (rf_time_bound hf data.distance_matrix.length (by omega)).2

/-- Witness for the amended C2 on the concrete two-location instance. -/
theorem C2_time_windows_amended_witness :
    (∀ k, k + 1 < (extract_solution data2 asg2).route.length →
      (data2.time_windows.getD
          ((extract_solution data2 asg2).route.getD k dStop).location_index (0, 0)).1 ≤
        ((extract_solution data2 asg2).route.getD k dStop).arrival_time ∧
      ((extract_solution data2 asg2).route.getD k dStop).arrival_time ≤
        (data2.time_windows.getD
          ((extract_solution data2 asg2).route.getD k dStop).location_index (0, 0)).2) ∧
    ((extract_solution data2 asg2).route.getD
        ((extract_solution data2 asg2).route.length - 1) dStop).arrival_time ≤
      data2.vehicle_time_capacity :=
  C2_time_windows_amended data2 (extract_solution data2 asg2) rfl (by decide)
    ⟨asg2, by decide, rfl⟩

/-- C3 counterexample data, in evaluated form: with a distance matrix
whose entries are taken in the same unit as the budget, a budget of 1
becomes a distance capacity of 1000, so a route of total matrix distance
4 is accepted. -/
def cexC3val : DataModel :=
  ⟨[[0, 2], [2, 0]], [[0, 1], [1, 0]], [(0, 100), (0, 100)], [0, 0],
    1, 0, 1000, 100⟩

lemma create_eval_cexC3 : create_data_model [[0, 2], [2, 0]] [[0, 1], [1, 0]]
    [(0, 100), (0, 100)] [0, 0] 1 100 = cexC3val := by
  norm_num [create_data_model, cexC3val, ratTrunc]

/-- A feasible assignment for the C3 counterexample instance. -/
def asgC3 : Assignment := ⟨[0, 1], [0, 1, 2], [0, 2, 4]⟩

/-- C3 is false as stated: on a data model built with distance budget 1,
the solve succeeds, yet the total cumulative distance of every returned
route (measured in the unit of the distance matrix, as the claim reads
the budget) is 4, exceeding the budget — `create_data_model` multiplies
the budget by 1000 before using it as the capacity. -/
theorem C3_budget_counterexample :
    (∃ sol, SolveSuccess (create_data_model [[0, 2], [2, 0]] [[0, 1], [1, 0]]
        [(0, 100), (0, 100)] [0, 0] 1 100) sol) ∧
    ∀ sol, SolveSuccess (create_data_model [[0, 2], [2, 0]] [[0, 1], [1, 0]]
        [(0, 100), (0, 100)] [0, 0] 1 100) sol →
      ¬ ((sol.route.getD (sol.route.length - 1) dStop).cumulative_distance ≤
          (1 : ℤ)) := by
  rw [create_eval_cexC3]
  constructor
  · exact ⟨extract_solution cexC3val asgC3, asgC3, by decide, rfl⟩
  · rintro sol ⟨a, hf, rfl⟩ hclaim
    have hN3 : cexC3val.distance_matrix.length = 2 := rfl
    have hlen : a.order.length = 2 := by rw [rf_order_length hf, hN3]
    have hord : a.order = [0, 1] := order_eq_two hf rfl rfl
    rw [extract_route_length] at hclaim
    rw [show cexC3val.distance_matrix.length + 1 - 1 = 2 from rfl,
      extract_route_getD cexC3val a (by rw [hN3]; omega)] at hclaim
    have hp0 : pathNode cexC3val a 0 = 0 := by
      rw [pathNode_of_lt (by omega), hord]
      rfl
    have hp1 : pathNode cexC3val a 1 = 1 := by
      rw [pathNode_of_lt (by omega), hord]
      rfl
    have hp2 : pathNode cexC3val a 2 = 0 := by
      rw [show (2 : ℕ) = a.order.length from hlen.symm, pathNode_last]
      rfl
    have hd0 := rf_dist_zero hf
    have hd1 := rf_dist_step hf 0 (by rw [hN3]; omega)
    have hd2 := rf_dist_step hf 1 (by rw [hN3]; omega)
    rw [hp0, hp1] at hd1
    rw [hp1, hp2] at hd2
    have hdc01 : distance_callback cexC3val 0 1 = 2 := by decide
    have hdc10 : distance_callback cexC3val 1 0 = 2 := by decide
    rw [hdc01] at hd1
    rw [hdc10] at hd2
    have hd1s : a.dists.getD 1 0 = a.dists.getD 0 0 + 2 := hd1
    have hd2s : a.dists.getD 2 0 = a.dists.getD 1 0 + 2 := hd2
    simp only [hd2s, hd1s, hd0] at hclaim
    omega

/-- C3 amended: a successful solve bounds the total cumulative elapsed
time by the max time budget, and bounds every stop's cumulative distance
by `int(max_distance * 1000)` — the distance budget is interpreted as
kilometers and converted to the matrix unit (meters) by a factor of 1000,
so it is the reported total distance in km, not the matrix-unit
cumulative distance, that respects `max_distance`. -/
theorem C3_budget_amended (D T : List (List ℚ)) (tw : List (ℤ × ℤ))
    (s : List ℤ) (maxd : ℚ) (maxt : ℤ) (sol : SolutionDict)
    (hs : SolveSuccess (create_data_model D T tw s maxd maxt) sol) :
    sol.total_time_minutes ≤ maxt ∧
    (∀ k, k < sol.route.length →
      (sol.route.getD k dStop).cumulative_distance ≤ ratTrunc (maxd * 1000)) ∧
    (0 ≤ maxd → sol.total_distance_km ≤ maxd) := by
  obtain ⟨a, hf, rfl⟩ := hs
  set data := create_data_model D T tw s maxd maxt with hdata
  have hcap : data.vehicle_capacity = ratTrunc (maxd * 1000) := rfl
  have htcap : data.vehicle_time_capacity = maxt := rfl
  refine ⟨?_, ?_, ?_⟩
  · show a.times.getD data.distance_matrix.length 0 ≤ maxt
    rw [← htcap]
    exact (rf_time_bound hf data.distance_matrix.length (by omega)).2
  · intro k hk
    rw [extract_route_length] at hk
    rw [extract_route_getD data a hk]
    rw [← hcap]
    exact (rf_dist_bound hf k hk).2
  · intro hmd
    have hfin := (rf_dist_bound hf data.distance_matrix.length (by omega)).2
    rw [hcap] at hfin
    show (a.dists.getD data.distance_matrix.length 0 : ℚ) / 1000 ≤ maxd
    have h1 : (a.dists.getD data.distance_matrix.length 0 : ℚ) ≤
        (ratTrunc (maxd * 1000) : ℚ) := by
      exact_mod_cast hfin
    have h2 : (ratTrunc (maxd * 1000) : ℚ) ≤ maxd * 1000 := by
      unfold ratTrunc
      rw [if_pos (mul_nonneg hmd (by norm_num))]
      exact Int.floor_le _
    have h3 : (a.dists.getD data.distance_matrix.length 0 : ℚ) ≤ maxd * 1000 :=
      le_trans h1 h2
    calc (a.dists.getD data.distance_matrix.length 0 : ℚ) / 1000
        ≤ maxd * 1000 / 1000 :=
          (div_le_div_iff_of_pos_right (show (0 : ℚ) < 1000 by norm_num)).mpr h3
      _ = maxd := by norm_num

/-- Witness for the amended C3 on the concrete two-location instance. -/
theorem C3_budget_amended_witness :
    (extract_solution data2 asg2).total_time_minutes ≤ 100 ∧
    (∀ k, k < (extract_solution data2 asg2).route.length →
      ((extract_solution data2 asg2).route.getD k dStop).cumulative_distance ≤
        ratTrunc (1 * 1000)) ∧
    (0 ≤ (1 : ℚ) → (extract_solution data2 asg2).total_distance_km ≤ 1) :=
  C3_budget_amended [[0, 1], [1, 0]] [[0, 5], [5, 0]] [(0, 100), (0, 50)]
    [0, 3] 1 100 (extract_solution data2 asg2)
    (by rw [create_eval_data2]; exact ⟨asg2, by decide, rfl⟩)

lemma stopsArcDist_tel (m : List (List ℤ)) :
    ∀ l : List Stop,
      (∀ k, k + 1 < l.length →
        (l.getD (k + 1) dStop).cumulative_distance =
          (l.getD k dStop).cumulative_distance +
            mat m (l.getD k dStop).location_index
              (l.getD (k + 1) dStop).location_index) →
      stopsArcDist m l =
        (l.getD (l.length - 1) dStop).cumulative_distance -
          (l.getD 0 dStop).cumulative_distance
  | [] => by
    intro _
    simp [stopsArcDist]
  | [x] => by
    intro _
    simp [stopsArcDist]
  | x :: y :: ys => by
    intro hstep
    have h0 := hstep 0 (by simp)
    simp only [List.getD_cons_succ, List.getD_cons_zero] at h0
    have hshift : ∀ k, k + 1 < (y :: ys).length →
        ((y :: ys).getD (k + 1) dStop).cumulative_distance =
          ((y :: ys).getD k dStop).cumulative_distance +
            mat m ((y :: ys).getD k dStop).location_index
              ((y :: ys).getD (k + 1) dStop).location_index := by
      intro k hk
      have := hstep (k + 1) (by simpa using Nat.succ_lt_succ hk)
      simpa only [List.getD_cons_succ] using this
    have ih := stopsArcDist_tel m (y :: ys) hshift
    simp only [stopsArcDist, List.length_cons, Nat.add_sub_cancel,
      List.getD_cons_succ, List.getD_cons_zero] at ih ⊢
    omega

lemma stopsArcTime_lower (data : DataModel) :
    ∀ l : List Stop,
      (∀ k, k + 1 < l.length →
        (l.getD k dStop).arrival_time +
            time_callback data (l.getD k dStop).location_index
              (l.getD (k + 1) dStop).location_index ≤
          (l.getD (k + 1) dStop).arrival_time) →
      (l.getD 0 dStop).arrival_time + stopsArcTime data l ≤
        (l.getD (l.length - 1) dStop).arrival_time
  | [] => by
    intro _
    simp [stopsArcTime]
  | [x] => by
    intro _
    simp [stopsArcTime]
  | x :: y :: ys => by
    intro hstep
    have h0 := hstep 0 (by simp)
    simp only [List.getD_cons_succ, List.getD_cons_zero] at h0
    have hshift : ∀ k, k + 1 < (y :: ys).length →
        ((y :: ys).getD k dStop).arrival_time +
            time_callback data ((y :: ys).getD k dStop).location_index
              ((y :: ys).getD (k + 1) dStop).location_index ≤
          ((y :: ys).getD (k + 1) dStop).arrival_time := by
      intro k hk
      have := hstep (k + 1) (by simpa using Nat.succ_lt_succ hk)
      simpa only [List.getD_cons_succ] using this
    have ih := stopsArcTime_lower data (y :: ys) hshift
    simp only [stopsArcTime, List.length_cons, Nat.add_sub_cancel,
      List.getD_cons_succ, List.getD_cons_zero] at ih ⊢
    omega

lemma stopsArcTime_upper (data : DataModel) :
    ∀ l : List Stop,
      (∀ k, k + 1 < l.length →
        (l.getD (k + 1) dStop).arrival_time ≤
          (l.getD k dStop).arrival_time +
            time_callback data (l.getD k dStop).location_index
              (l.getD (k + 1) dStop).location_index + 60) →
      (l.getD (l.length - 1) dStop).arrival_time ≤
        (l.getD 0 dStop).arrival_time + stopsArcTime data l +
          60 * ((l.length - 1 : ℕ) : ℤ)
  | [] => by
    intro _
    simp [stopsArcTime]
  | [x] => by
    intro _
    simp [stopsArcTime]
  | x :: y :: ys => by
    intro hstep
    have h0 := hstep 0 (by simp)
    simp only [List.getD_cons_succ, List.getD_cons_zero] at h0
    have hshift : ∀ k, k + 1 < (y :: ys).length →
        ((y :: ys).getD (k + 1) dStop).arrival_time ≤
          ((y :: ys).getD k dStop).arrival_time +
            time_callback data ((y :: ys).getD k dStop).location_index
              ((y :: ys).getD (k + 1) dStop).location_index + 60 := by
      intro k hk
      have := hstep (k + 1) (by simpa using Nat.succ_lt_succ hk)
      simpa only [List.getD_cons_succ] using this
    have ih := stopsArcTime_upper data (y :: ys) hshift
    simp only [stopsArcTime, List.length_cons, Nat.add_sub_cancel,
      List.getD_cons_succ, List.getD_cons_zero] at ih ⊢
    push_cast at ih ⊢
    omega

/-- In every successful extraction the consecutive stops satisfy the
dimension recurrences: the distance cumul advances by exactly the matrix
entry, the time cumul advances by at least the travel-plus-service
increment and at most that plus the waiting slack of 60. -/
lemma extract_consecutive (data : DataModel) (a : Assignment)
    (hf : RoutingFeasible data a) :
    ∀ k, k + 1 < (extract_solution data a).route.length →
      ((extract_solution data a).route.getD (k + 1) dStop).cumulative_distance =
        ((extract_solution data a).route.getD k dStop).cumulative_distance +
          mat data.distance_matrix
            ((extract_solution data a).route.getD k dStop).location_index
            ((extract_solution data a).route.getD (k + 1) dStop).location_index ∧
      ((extract_solution data a).route.getD k dStop).arrival_time +
          time_callback data
            ((extract_solution data a).route.getD k dStop).location_index
            ((extract_solution data a).route.getD (k + 1) dStop).location_index ≤
        ((extract_solution data a).route.getD (k + 1) dStop).arrival_time ∧
      ((extract_solution data a).route.getD (k + 1) dStop).arrival_time ≤
        ((extract_solution data a).route.getD k dStop).arrival_time +
          time_callback data
            ((extract_solution data a).route.getD k dStop).location_index
            ((extract_solution data a).route.getD (k + 1) dStop).location_index +
          60 := by
  intro k hk
  rw [extract_route_length] at hk
  rw [extract_route_getD data a (by omega), extract_route_getD data a (by omega)]
  exact ⟨rf_dist_step hf k (by omega),
    (rf_time_step hf k (by omega)).1, (rf_time_step hf k (by omega)).2⟩

/-- C4 counterexample data, in evaluated form. -/
def cexC4val : DataModel :=
  ⟨[[0, 7], [7, 0]], [[0, 2], [2, 0]], [(0, 100), (10, 20)], [0, 0],
    1, 0, 100000, 100⟩

lemma create_eval_cexC4 : create_data_model [[0, 7], [7, 0]] [[0, 2], [2, 0]]
    [(0, 100), (10, 20)] [0, 0] 100 100 = cexC4val := by
  norm_num [create_data_model, cexC4val, ratTrunc]

/-- A feasible assignment for the C4 counterexample instance: the client
window [10, 20] forces waiting before service. -/
def asgC4 : Assignment := ⟨[0, 1], [0, 10, 12], [0, 7, 14]⟩

/-- C4 is false as stated: on this instance the solve succeeds, but the
reported total distance of every returned route is the arc sum divided by
1000 (14/1000 instead of 14), and the reported total time exceeds the sum
of time-matrix entries plus service durations (at least 12 instead of 4)
because the window [10, 20] forces waiting. -/
theorem C4_totals_counterexample :
    (∃ sol, SolveSuccess (create_data_model [[0, 7], [7, 0]] [[0, 2], [2, 0]]
        [(0, 100), (10, 20)] [0, 0] 100 100) sol) ∧
    ∀ sol, SolveSuccess (create_data_model [[0, 7], [7, 0]] [[0, 2], [2, 0]]
        [(0, 100), (10, 20)] [0, 0] 100 100) sol →
      sol.total_distance_km ≠ (stopsArcDist cexC4val.distance_matrix sol.route : ℚ) ∧
      sol.total_time_minutes ≠ stopsArcTime cexC4val sol.route := by
  rw [create_eval_cexC4]
  constructor
  · exact ⟨extract_solution cexC4val asgC4, asgC4, by decide, rfl⟩
  · rintro sol ⟨a, hf, rfl⟩
    have hN4 : cexC4val.distance_matrix.length = 2 := rfl
    have hlen : a.order.length = 2 := by rw [rf_order_length hf, hN4]
    have hord : a.order = [0, 1] := order_eq_two hf rfl rfl
    have hp0 : pathNode cexC4val a 0 = 0 := by
      rw [pathNode_of_lt (by omega), hord]
      rfl
    have hp1 : pathNode cexC4val a 1 = 1 := by
      rw [pathNode_of_lt (by omega), hord]
      rfl
    have hp2 : pathNode cexC4val a 2 = 0 := by
      rw [show (2 : ℕ) = a.order.length from hlen.symm, pathNode_last]
      rfl
    have hd0 := rf_dist_zero hf
    have hd1 := rf_dist_step hf 0 (by rw [hN4]; omega)
    have hd2 := rf_dist_step hf 1 (by rw [hN4]; omega)
    rw [hp0, hp1, show distance_callback cexC4val 0 1 = 7 from by decide] at hd1
    rw [hp1, hp2, show distance_callback cexC4val 1 0 = 7 from by decide] at hd2
    have hd1v : a.dists.getD 1 0 = 7 := by
      rw [show a.dists.getD 1 0 = a.dists.getD (0 + 1) 0 from rfl, hd1, hd0]
      ring
    have hd2v : a.dists.getD 2 0 = 14 := by
      rw [show a.dists.getD 2 0 = a.dists.getD (1 + 1) 0 from rfl, hd2, hd1v]
      ring
    have hroute : (extract_solution cexC4val a).route =
        [⟨pathNode cexC4val a 0, a.times.getD 0 0, a.dists.getD 0 0⟩,
         ⟨pathNode cexC4val a 1, a.times.getD 1 0, a.dists.getD 1 0⟩,
         ⟨pathNode cexC4val a 2, a.times.getD 2 0, a.dists.getD 2 0⟩] := rfl
    have hsum : stopsArcDist cexC4val.distance_matrix
        (extract_solution cexC4val a).route = 14 := by
      rw [hroute]
      simp only [stopsArcDist, hp0, hp1, hp2]
      decide
    have htsum : stopsArcTime cexC4val (extract_solution cexC4val a).route = 4 := by
      rw [hroute]
      simp only [stopsArcTime, hp0, hp1, hp2]
      decide
    have hwin := rf_window hf 1 (by rw [hN4]; omega) (by omega)
      (by rw [hp1]; decide)
    rw [hp1] at hwin
    have hwin1 : (10 : ℤ) ≤ a.times.getD 1 0 := hwin.1
    have ht1 := (rf_time_step hf 1 (by rw [hN4]; omega)).1
    rw [hp1, hp2, show time_callback cexC4val 1 0 = 2 from by decide] at ht1
    have h12 : a.times.getD 1 0 + 2 ≤ a.times.getD 2 0 := ht1
    have ht2v : a.times.getD 2 0 ≥ 12 := by omega
    constructor
    · show ¬ ((a.dists.getD 2 0 : ℚ) / 1000 = _)
      rw [hsum, hd2v]
      norm_num
    · show ¬ (a.times.getD 2 0 = _)
      rw [htsum]
      omega

/-- C4 amended: in every successful solve the per-stop cumulative
distances advance by exactly the matrix entry of each arc (no drift), the
reported total distance equals the recomputed arc sum divided by 1000,
and the reported total time equals the final time cumul, which lies
between the start time plus the recomputed travel-and-service sum and
that value plus 60 minutes of waiting per arc. -/
theorem C4_totals_amended (data : DataModel) (sol : SolutionDict)
    (hs : SolveSuccess data sol) :
    (∀ k, k + 1 < sol.route.length →
      (sol.route.getD (k + 1) dStop).cumulative_distance =
        (sol.route.getD k dStop).cumulative_distance +
          mat data.distance_matrix (sol.route.getD k dStop).location_index
            (sol.route.getD (k + 1) dStop).location_index) ∧
    sol.total_distance_km * 1000 = (stopsArcDist data.distance_matrix sol.route : ℚ) ∧
    (sol.route.getD 0 dStop).arrival_time + stopsArcTime data sol.route ≤
      sol.total_time_minutes ∧
    sol.total_time_minutes ≤
      (sol.route.getD 0 dStop).arrival_time + stopsArcTime data sol.route +
        60 * ((sol.route.length : ℤ) - 1) := by
  obtain ⟨a, hf, rfl⟩ := hs
  have hcons := extract_consecutive data a hf
  have hlast : (extract_solution data a).route.length - 1 =
      data.distance_matrix.length := by
    rw [extract_route_length]
    omega
  have harr : ((extract_solution data a).route.getD
      ((extract_solution data a).route.length - 1) dStop).arrival_time =
      (extract_solution data a).total_time_minutes := by
    rw [hlast, extract_route_getD data a (by omega)]
    rfl
  refine ⟨fun k hk => (hcons k hk).1, ?_, ?_, ?_⟩
  · have htel := stopsArcDist_tel data.distance_matrix
      (extract_solution data a).route (fun k hk => (hcons k hk).1)
    rw [htel, hlast, extract_route_getD data a (by omega),
      extract_route_getD data a (by omega)]
    show (a.dists.getD data.distance_matrix.length 0 : ℚ) / 1000 * 1000 =
      ((a.dists.getD data.distance_matrix.length 0 - a.dists.getD 0 0 : ℤ) : ℚ)
    rw [div_mul_cancel₀ _ (show (1000 : ℚ) ≠ 0 by norm_num)]
    rw [rf_dist_zero hf]
    push_cast
    ring
  · have htel := stopsArcTime_lower data
      (extract_solution data a).route (fun k hk => (hcons k hk).2.1)
    rw [harr] at htel
    exact htel
  · have htel := stopsArcTime_upper data
      (extract_solution data a).route (fun k hk => (hcons k hk).2.2)
    rw [harr] at htel
    have hcast : (((extract_solution data a).route.length - 1 : ℕ) : ℤ) =
        ((extract_solution data a).route.length : ℤ) - 1 := by
      rw [extract_route_length]
      push_cast
      ring
    rw [hcast] at htel
    exact htel

/-- Witness for the amended C4 on the concrete two-location instance. -/
theorem C4_totals_amended_witness :
    (∀ k, k + 1 < (extract_solution data2 asg2).route.length →
      ((extract_solution data2 asg2).route.getD (k + 1) dStop).cumulative_distance =
        ((extract_solution data2 asg2).route.getD k dStop).cumulative_distance +
          mat data2.distance_matrix
            ((extract_solution data2 asg2).route.getD k dStop).location_index
            ((extract_solution data2 asg2).route.getD (k + 1) dStop).location_index) ∧
    (extract_solution data2 asg2).total_distance_km * 1000 =
      (stopsArcDist data2.distance_matrix (extract_solution data2 asg2).route : ℚ) ∧
    ((extract_solution data2 asg2).route.getD 0 dStop).arrival_time +
        stopsArcTime data2 (extract_solution data2 asg2).route ≤
      (extract_solution data2 asg2).total_time_minutes ∧
    (extract_solution data2 asg2).total_time_minutes ≤
      ((extract_solution data2 asg2).route.getD 0 dStop).arrival_time +
        stopsArcTime data2 (extract_solution data2 asg2).route +
        60 * (((extract_solution data2 asg2).route.length : ℤ) - 1) :=
  C4_totals_amended data2 (extract_solution data2 asg2) ⟨asg2, by decide, rfl⟩

lemma rowlen_map_trunc (D : List (List ℚ)) (i : ℕ) :
    ((D.map (fun row => row.map ratTrunc)).getD i []).length =
      (D.getD i []).length := by
  rcases Nat.lt_or_ge i D.length with hi | hi
  · rw [List.getD_eq_getElem _ _ (by simpa using hi),
      List.getD_eq_getElem _ _ hi]
    simp
  · rw [List.getD_eq_default _ _ (by simpa using hi),
      List.getD_eq_default _ _ hi]
    rfl

/-- C5 is false as stated: `create_data_model` performs no input
validation — a call with a non-square 1-row distance matrix, a time
matrix of different shape, one time window and two service durations
builds a data model normally (storing the malformed content verbatim)
instead of failing fast with a `ValidationError`; the Python bodies of
`create_data_model` and `solve` contain no validation or raise at all. -/
theorem C5_validation_counterexample :
    create_data_model [[0, 1]] [[0], [0]] [(0, 5)] [0, 0] 10 10 =
      ⟨[[0, 1]], [[0], [0]], [(0, 5)], [0, 0], 1, 0, 10000, 10⟩ ∧
    (create_data_model [[0, 1]] [[0], [0]] [(0, 5)]
        [0, 0] 10 10).distance_matrix.length ≠
      ((create_data_model [[0, 1]] [[0], [0]] [(0, 5)]
        [0, 0] 10 10).distance_matrix.getD 0 []).length := by
  have h : create_data_model [[0, 1]] [[0], [0]] [(0, 5)] [0, 0] 10 10 =
      (⟨[[0, 1]], [[0], [0]], [(0, 5)], [0, 0], 1, 0, 10000, 10⟩ : DataModel) := by
    norm_num [create_data_model, ratTrunc]
  refine ⟨h, ?_⟩
  rw [h]
  decide

/-- C5 amended: the solve pipeline performs no input validation; the data
model is built totally for every input, storing the time windows and
service durations verbatim and preserving the shape of both matrices —
malformed inputs are not rejected and no `ValidationError` exists. -/
theorem C5_no_validation_amended (D T : List (List ℚ)) (tw : List (ℤ × ℤ))
    (s : List ℤ) (maxd : ℚ) (maxt : ℤ) :
    (create_data_model D T tw s maxd maxt).time_windows = tw ∧
    (create_data_model D T tw s maxd maxt).service_times = s ∧
    (create_data_model D T tw s maxd maxt).distance_matrix.length = D.length ∧
    (create_data_model D T tw s maxd maxt).time_matrix.length = T.length ∧
    (∀ i, ((create_data_model D T tw s maxd maxt).distance_matrix.getD i []).length =
      (D.getD i []).length) ∧
    (∀ i, ((create_data_model D T tw s maxd maxt).time_matrix.getD i []).length =
      (T.getD i []).length) :=
  ⟨rfl, rfl, by simp [create_data_model], by simp [create_data_model],
    fun i => rowlen_map_trunc D i, fun i => rowlen_map_trunc T i⟩

/-- C6 is false as stated: the failure value returned by `solve` is the
bare `None`: the two failure causes of the design produce identical
return values, so the failure signal carries no failure kind and an
infeasible instance is not distinguishable by the caller from a timeout
without a solution. -/
theorem C6_failure_counterexample :
    solveReturn data2 SearchOutcome.noFeasible =
      solveReturn data2 SearchOutcome.timedOutNoSolution ∧
    solveReturn data2 SearchOutcome.noFeasible = none :=
  ⟨rfl, rfl⟩

/-- C6 amended: when the solve fails it returns `None` — a value distinct
from every success dictionary, so failure is distinguishable from
success — but the value carries no failure kind: infeasibility and
timeout produce the same `None`. -/
theorem C6_failure_amended (data : DataModel) (o : SearchOutcome)
    (h : ∀ a, o ≠ SearchOutcome.found a) :
    solveReturn data o = none ∧
    (∀ sol, solveReturn data o ≠ some sol) ∧
    solveReturn data SearchOutcome.noFeasible =
      solveReturn data SearchOutcome.timedOutNoSolution := by
  cases o with
  | found a => exact absurd rfl (h a)
  | noFeasible => exact ⟨rfl, fun sol h2 => Option.noConfusion h2, rfl⟩
  | timedOutNoSolution => exact ⟨rfl, fun sol h2 => Option.noConfusion h2, rfl⟩

/-- Witness for the amended C6. -/
theorem C6_failure_amended_witness :
    solveReturn data2 SearchOutcome.noFeasible = none ∧
    (∀ sol, solveReturn data2 SearchOutcome.noFeasible ≠ some sol) ∧
    solveReturn data2 SearchOutcome.noFeasible =
      solveReturn data2 SearchOutcome.timedOutNoSolution :=
  C6_failure_amended data2 SearchOutcome.noFeasible
    (fun _ h => SearchOutcome.noConfusion h)

/-- C7: the time dimension increment on each arc equals
travel_time(from, to) plus service_time(from), with per-stop slack
allowing a bounded wait of at most 60; the distance dimension increment
equals distance(from, to) exactly (zero slack) and is subject only to
the route-level capacity bound. -/
theorem C7_dimension_increments (data : DataModel) (sol : SolutionDict)
    (hs : SolveSuccess data sol) :
    (∀ i j, time_callback data i j =
      mat data.time_matrix i j + data.service_times.getD i 0) ∧
    (∀ i j, distance_callback data i j = mat data.distance_matrix i j) ∧
    (∀ k, k + 1 < sol.route.length →
      (sol.route.getD (k + 1) dStop).cumulative_distance -
          (sol.route.getD k dStop).cumulative_distance =
        distance_callback data (sol.route.getD k dStop).location_index
          (sol.route.getD (k + 1) dStop).location_index ∧
      time_callback data (sol.route.getD k dStop).location_index
          (sol.route.getD (k + 1) dStop).location_index ≤
        (sol.route.getD (k + 1) dStop).arrival_time -
          (sol.route.getD k dStop).arrival_time ∧
      (sol.route.getD (k + 1) dStop).arrival_time -
          (sol.route.getD k dStop).arrival_time ≤
        time_callback data (sol.route.getD k dStop).location_index
          (sol.route.getD (k + 1) dStop).location_index + 60) ∧
    (∀ k, k < sol.route.length →
      (sol.route.getD k dStop).cumulative_distance ≤ data.vehicle_capacity) := by
  obtain ⟨a, hf, rfl⟩ := hs
  have hcons := extract_consecutive data a hf
  refine ⟨fun i j => rfl, fun i j => rfl, ?_, ?_⟩
  · intro k hk
    obtain ⟨hdist, htlow, htup⟩ := hcons k hk
    refine ⟨?_, by omega, by omega⟩
    simp only [distance_callback]
    omega
  · intro k hk
    rw [extract_route_length] at hk
    rw [extract_route_getD data a hk]
    exact (rf_dist_bound hf k hk).2

/-- Witness for C7 on the concrete two-location instance. -/
theorem C7_dimension_increments_witness :
    (∀ i j, time_callback data2 i j =
      mat data2.time_matrix i j + data2.service_times.getD i 0) ∧
    (∀ i j, distance_callback data2 i j = mat data2.distance_matrix i j) ∧
    (∀ k, k + 1 < (extract_solution data2 asg2).route.length →
      ((extract_solution data2 asg2).route.getD (k + 1) dStop).cumulative_distance -
          ((extract_solution data2 asg2).route.getD k dStop).cumulative_distance =
        distance_callback data2
          ((extract_solution data2 asg2).route.getD k dStop).location_index
          ((extract_solution data2 asg2).route.getD (k + 1) dStop).location_index ∧
      time_callback data2
          ((extract_solution data2 asg2).route.getD k dStop).location_index
          ((extract_solution data2 asg2).route.getD (k + 1) dStop).location_index ≤
        ((extract_solution data2 asg2).route.getD (k + 1) dStop).arrival_time -
          ((extract_solution data2 asg2).route.getD k dStop).arrival_time ∧
      ((extract_solution data2 asg2).route.getD (k + 1) dStop).arrival_time -
          ((extract_solution data2 asg2).route.getD k dStop).arrival_time ≤
        time_callback data2
          ((extract_solution data2 asg2).route.getD k dStop).location_index
          ((extract_solution data2 asg2).route.getD (k + 1) dStop).location_index + 60) ∧
    (∀ k, k < (extract_solution data2 asg2).route.length →
      ((extract_solution data2 asg2).route.getD k dStop).cumulative_distance ≤
        data2.vehicle_capacity) :=
  C7_dimension_increments data2 (extract_solution data2 asg2)
    ⟨asg2, by decide, rfl⟩

lemma mat_nonneg {m : List (List ℤ)}
    (h : ∀ row ∈ m, ∀ x ∈ row, (0 : ℤ) ≤ x) (i j : ℕ) : 0 ≤ mat m i j := by
  unfold mat
  rcases Nat.lt_or_ge i m.length with hi | hi
  · rw [List.getD_eq_getElem _ _ hi]
    rcases Nat.lt_or_ge j (m[i].length) with hj | hj
    · rw [List.getD_eq_getElem _ _ hj]
      exact h m[i] (List.getElem_mem hi) _ (List.getElem_mem hj)
    · rw [List.getD_eq_default _ _ hj]
  · rw [List.getD_eq_default _ _ hi]
    simp

lemma list_getD_nonneg {s : List ℤ} (h : ∀ x ∈ s, (0 : ℤ) ≤ x) (i : ℕ) :
    0 ≤ s.getD i 0 := by
  rcases Nat.lt_or_ge i s.length with hi | hi
  · rw [List.getD_eq_getElem _ _ hi]
    exact h _ (List.getElem_mem hi)
  · rw [List.getD_eq_default _ _ hi]

/-- C8: when the distance matrix, the time matrix and the service
durations are entrywise non-negative, the per-stop cumulative distance
and arrival time are non-decreasing along the returned route of every
successful solve. -/
theorem C8_cumulative_monotone (data : DataModel) (sol : SolutionDict)
    (hD : ∀ row ∈ data.distance_matrix, ∀ x ∈ row, (0 : ℤ) ≤ x)
    (hT : ∀ row ∈ data.time_matrix, ∀ x ∈ row, (0 : ℤ) ≤ x)
    (hS : ∀ x ∈ data.service_times, (0 : ℤ) ≤ x)
    (hs : SolveSuccess data sol) :
    ∀ k, k + 1 < sol.route.length →
      (sol.route.getD k dStop).cumulative_distance ≤
        (sol.route.getD (k + 1) dStop).cumulative_distance ∧
      (sol.route.getD k dStop).arrival_time ≤
        (sol.route.getD (k + 1) dStop).arrival_time := by
  obtain ⟨a, hf, rfl⟩ := hs
  have hcons := extract_consecutive data a hf
  intro k hk
  obtain ⟨hdist, htlow, _⟩ := hcons k hk
  constructor
  · have hm := mat_nonneg hD
      ((extract_solution data a).route.getD k dStop).location_index
      ((extract_solution data a).route.getD (k + 1) dStop).location_index
    omega
  · have hm := mat_nonneg hT
      ((extract_solution data a).route.getD k dStop).location_index
      ((extract_solution data a).route.getD (k + 1) dStop).location_index
    have hsv := list_getD_nonneg hS
      ((extract_solution data a).route.getD k dStop).location_index
    have htc : time_callback data
        ((extract_solution data a).route.getD k dStop).location_index
        ((extract_solution data a).route.getD (k + 1) dStop).location_index =
        mat data.time_matrix
          ((extract_solution data a).route.getD k dStop).location_index
          ((extract_solution data a).route.getD (k + 1) dStop).location_index +
        data.service_times.getD
          ((extract_solution data a).route.getD k dStop).location_index 0 := rfl
    omega

/-- Witness for C8 on the first arc of the concrete two-location
instance. -/
theorem C8_cumulative_monotone_witness :
    ((extract_solution data2 asg2).route.getD 0 dStop).cumulative_distance ≤
      ((extract_solution data2 asg2).route.getD 1 dStop).cumulative_distance ∧
    ((extract_solution data2 asg2).route.getD 0 dStop).arrival_time ≤
      ((extract_solution data2 asg2).route.getD 1 dStop).arrival_time :=
  C8_cumulative_monotone data2 (extract_solution data2 asg2)
    (by decide) (by decide) (by decide) ⟨asg2, by decide, rfl⟩ 0 (by decide)

lemma range_map_getD {α : Type} (n : ℕ) (g : ℕ → α) (d : α) {i : ℕ}
    (hi : i < n) : ((List.range n).map g).getD i d = g i := by
  rw [List.getD_eq_getElem _ _ (by simpa using hi)]
  simp

lemma fallbackDist_nonneg (sqrtf cosf radf : ℚ → ℚ)
    (hsq : ∀ x : ℚ, 0 ≤ x → 0 ≤ sqrtf x) (locations : List (ℚ × ℚ))
    (i j : ℕ) : 0 ≤ fallbackDist sqrtf cosf radf locations i j := by
  unfold fallbackDist
  split
  · exact le_refl 0
  · exact hsq _ (by positivity)

/-- C9: the geometric fallback returns, for every list of n locations,
an n-by-n distance matrix and an n-by-n duration matrix whose entries
are all non-negative with zero on the diagonal, provided the square-root
kernel returns a non-negative value on non-negative arguments. -/
theorem C9_fallback_matrices (sqrtf cosf radf : ℚ → ℚ)
    (hsq : ∀ x : ℚ, 0 ≤ x → 0 ≤ sqrtf x) (locations : List (ℚ × ℚ)) :
    (euclidean_fallback sqrtf cosf radf locations).1.length = locations.length ∧
    (euclidean_fallback sqrtf cosf radf locations).2.length = locations.length ∧
    (∀ i, i < locations.length →
      ((euclidean_fallback sqrtf cosf radf locations).1.getD i []).length =
        locations.length ∧
      ((euclidean_fallback sqrtf cosf radf locations).2.getD i []).length =
        locations.length) ∧
    (∀ i, i < locations.length →
      ((euclidean_fallback sqrtf cosf radf locations).1.getD i []).getD i 1 = 0 ∧
      ((euclidean_fallback sqrtf cosf radf locations).2.getD i []).getD i 1 = 0) ∧
    (∀ i j, 0 ≤ ((euclidean_fallback sqrtf cosf radf locations).1.getD i []).getD j 0 ∧
      0 ≤ ((euclidean_fallback sqrtf cosf radf locations).2.getD i []).getD j 0) := by
  refine ⟨by simp [euclidean_fallback], by simp [euclidean_fallback], ?_, ?_, ?_⟩
  · intro i hi
    constructor
    · show (((List.range locations.length).map (fun i =>
        (List.range locations.length).map (fun j =>
          fallbackDist sqrtf cosf radf locations i j))).getD i []).length = _
      rw [range_map_getD _ _ _ hi]
      simp
    · show (((List.range locations.length).map (fun i =>
        (List.range locations.length).map (fun j =>
          if i = j then 0 else
            fallbackDist sqrtf cosf radf locations i j / 40 * 60))).getD i []).length = _
      rw [range_map_getD _ _ _ hi]
      simp
  · intro i hi
    constructor
    · show (((List.range locations.length).map (fun i =>
        (List.range locations.length).map (fun j =>
          fallbackDist sqrtf cosf radf locations i j))).getD i []).getD i 1 = 0
      rw [range_map_getD _ _ _ hi, range_map_getD _ _ _ hi]
      unfold fallbackDist
      rw [if_pos rfl]
    · show (((List.range locations.length).map (fun i =>
        (List.range locations.length).map (fun j =>
          if i = j then 0 else
            fallbackDist sqrtf cosf radf locations i j / 40 * 60))).getD i []).getD i 1 = 0
      rw [range_map_getD _ _ _ hi, range_map_getD _ _ _ hi]
      rw [if_pos rfl]
  · intro i j
    constructor
    · show 0 ≤ (((List.range locations.length).map (fun i =>
        (List.range locations.length).map (fun j =>
          fallbackDist sqrtf cosf radf locations i j))).getD i []).getD j 0
      rcases Nat.lt_or_ge i locations.length with hi | hi
      · rw [range_map_getD _ _ _ hi]
        rcases Nat.lt_or_ge j locations.length with hj | hj
        · rw [range_map_getD _ _ _ hj]
          exact fallbackDist_nonneg sqrtf cosf radf hsq locations i j
        · have hinner : ((List.range locations.length).map (fun j =>
              fallbackDist sqrtf cosf radf locations i j)).getD j 0 = 0 :=
            List.getD_eq_default _ _ (by simpa using hj)
          rw [hinner]
      · have houter : ((List.range locations.length).map (fun i =>
            (List.range locations.length).map (fun j =>
              fallbackDist sqrtf cosf radf locations i j))).getD i [] = [] :=
          List.getD_eq_default _ _ (by simpa using hi)
        rw [houter]
        simp
    · show 0 ≤ (((List.range locations.length).map (fun i =>
        (List.range locations.length).map (fun j =>
          if i = j then 0 else
            fallbackDist sqrtf cosf radf locations i j / 40 * 60))).getD i []).getD j 0
      rcases Nat.lt_or_ge i locations.length with hi | hi
      · rw [range_map_getD _ _ _ hi]
        rcases Nat.lt_or_ge j locations.length with hj | hj
        · rw [range_map_getD _ _ _ hj]
          split
          · exact le_refl 0
          · have := fallbackDist_nonneg sqrtf cosf radf hsq locations i j
            positivity
        · have hinner : ((List.range locations.length).map (fun j =>
              if i = j then 0 else
                fallbackDist sqrtf cosf radf locations i j / 40 * 60)).getD j 0 = 0 :=
            List.getD_eq_default _ _ (by simpa using hj)
          rw [hinner]
      · have houter : ((List.range locations.length).map (fun i =>
            (List.range locations.length).map (fun j =>
              if i = j then 0 else
                fallbackDist sqrtf cosf radf locations i j / 40 * 60))).getD i [] = [] :=
          List.getD_eq_default _ _ (by simpa using hi)
        rw [houter]
        simp

/-- Witness for C9 with a concrete square-root kernel and two
locations. -/
theorem C9_fallback_matrices_witness :
    (euclidean_fallback (fun _ => 0) (fun _ => 0) (fun _ => 0)
      [((0 : ℚ), (0 : ℚ)), (1, 1)]).1.length = 2 ∧
    (euclidean_fallback (fun _ => 0) (fun _ => 0) (fun _ => 0)
      [((0 : ℚ), (0 : ℚ)), (1, 1)]).2.length = 2 ∧
    (∀ i, i < 2 →
      ((euclidean_fallback (fun _ => 0) (fun _ => 0) (fun _ => 0)
        [((0 : ℚ), (0 : ℚ)), (1, 1)]).1.getD i []).length = 2 ∧
      ((euclidean_fallback (fun _ => 0) (fun _ => 0) (fun _ => 0)
        [((0 : ℚ), (0 : ℚ)), (1, 1)]).2.getD i []).length = 2) ∧
    (∀ i, i < 2 →
      ((euclidean_fallback (fun _ => 0) (fun _ => 0) (fun _ => 0)
        [((0 : ℚ), (0 : ℚ)), (1, 1)]).1.getD i []).getD i 1 = 0 ∧
      ((euclidean_fallback (fun _ => 0) (fun _ => 0) (fun _ => 0)
        [((0 : ℚ), (0 : ℚ)), (1, 1)]).2.getD i []).getD i 1 = 0) ∧
    (∀ i j, 0 ≤ ((euclidean_fallback (fun _ => 0) (fun _ => 0) (fun _ => 0)
        [((0 : ℚ), (0 : ℚ)), (1, 1)]).1.getD i []).getD j 0 ∧
      0 ≤ ((euclidean_fallback (fun _ => 0) (fun _ => 0) (fun _ => 0)
        [((0 : ℚ), (0 : ℚ)), (1, 1)]).2.getD i []).getD j 0) :=
  C9_fallback_matrices (fun _ => 0) (fun _ => 0) (fun _ => 0)
    (fun _ _ => le_refl 0) [((0 : ℚ), (0 : ℚ)), (1, 1)]

lemma mat_map_trunc (D : List (List ℚ)) {i j : ℕ} (hi : i < D.length)
    (hj : j < (D.getD i []).length) :
    mat (D.map (fun row => row.map ratTrunc)) i j =
      ratTrunc ((D.getD i []).getD j 0) := by
  unfold mat
  have h1 : i < (D.map (fun row => row.map ratTrunc)).length := by simpa using hi
  have houter : (D.map (fun row => row.map ratTrunc)).getD i [] =
      (D.getD i []).map ratTrunc := by
    rw [List.getD_eq_getElem _ _ h1, List.getD_eq_getElem _ _ hi]
    simp
  rw [houter]
  have hj2 : j < ((D.getD i []).map ratTrunc).length := by simpa using hj
  rw [List.getD_eq_getElem _ _ hj2, List.getD_eq_getElem _ _ hj]
  simp

/-- C10: the data model builder truncates every distance-matrix and
time-matrix entry toward zero before solving, and the time callback used
by the solver evaluates to the truncated travel time plus the service
time; truncation toward zero agrees with the floor on non-negative
entries. -/
theorem C10_truncation (D T : List (List ℚ)) (tw : List (ℤ × ℤ))
    (s : List ℤ) (maxd : ℚ) (maxt : ℤ) (i j : ℕ)
    (hiD : i < D.length) (hjD : j < (D.getD i []).length)
    (hiT : i < T.length) (hjT : j < (T.getD i []).length) :
    mat (create_data_model D T tw s maxd maxt).distance_matrix i j =
      ratTrunc ((D.getD i []).getD j 0) ∧
    mat (create_data_model D T tw s maxd maxt).time_matrix i j =
      ratTrunc ((T.getD i []).getD j 0) ∧
    time_callback (create_data_model D T tw s maxd maxt) i j =
      ratTrunc ((T.getD i []).getD j 0) + s.getD i 0 ∧
    (∀ q : ℚ, 0 ≤ q → ratTrunc q = ⌊q⌋) ∧
    (∀ q : ℚ, q < 0 → ratTrunc q = ⌈q⌉) := by
  have hD : mat (create_data_model D T tw s maxd maxt).distance_matrix i j =
      ratTrunc ((D.getD i []).getD j 0) := mat_map_trunc D hiD hjD
  have hT : mat (create_data_model D T tw s maxd maxt).time_matrix i j =
      ratTrunc ((T.getD i []).getD j 0) := mat_map_trunc T hiT hjT
  refine ⟨hD, hT, ?_, ?_, ?_⟩
  · show mat (create_data_model D T tw s maxd maxt).time_matrix i j +
      s.getD i 0 = ratTrunc ((T.getD i []).getD j 0) + s.getD i 0
    rw [hT]
  · intro q hq
    unfold ratTrunc
    rw [if_pos hq]
  · intro q hq
    unfold ratTrunc
    rw [if_neg (not_le.mpr hq)]

/-- Witness for C10 on concrete fractional matrices: 3/2 is truncated to
1 and 7/3 to 2. -/
theorem C10_truncation_witness :
    mat (create_data_model [[(3 : ℚ) / 2]] [[(7 : ℚ) / 3]] [(0, 5)] [4]
        1 10).distance_matrix 0 0 =
      ratTrunc ((([[(3 : ℚ) / 2]].getD 0 []).getD 0 0)) ∧
    mat (create_data_model [[(3 : ℚ) / 2]] [[(7 : ℚ) / 3]] [(0, 5)] [4]
        1 10).time_matrix 0 0 =
      ratTrunc ((([[(7 : ℚ) / 3]].getD 0 []).getD 0 0)) ∧
    time_callback (create_data_model [[(3 : ℚ) / 2]] [[(7 : ℚ) / 3]] [(0, 5)]
        [4] 1 10) 0 0 =
      ratTrunc ((([[(7 : ℚ) / 3]].getD 0 []).getD 0 0)) + ([(4 : ℤ)].getD 0 0) ∧
    (∀ q : ℚ, 0 ≤ q → ratTrunc q = ⌊q⌋) ∧
    (∀ q : ℚ, q < 0 → ratTrunc q = ⌈q⌉) :=
  C10_truncation [[(3 : ℚ) / 2]] [[(7 : ℚ) / 3]] [(0, 5)] [4] 1 10 0 0
    (by decide) (by decide) (by decide) (by decide)

end VRP
